import Mathlib

/- Verification development for the portal rotation-gesture engine.
   The engine is documented in the repository as TypeScript listeners and
   pseudocode (REFERENCE / src/unnamed/part_000, ROTATION_POC.md, App.tsx).
   Each definition below is a shallow embedding of one of those source
   fragments; floating-point values become exact rationals. -/

/-- Threshold constant from the THRESHOLDS table (part_000 line 339):
attach threshold in microtesla above baseline. -/
def MAG_ATTACH_DELTA : ℚ := 40

/-- Threshold constant from the THRESHOLDS table (part_000 line 340):
detach threshold, declared with a hysteresis comment but referenced by no
listener in the repository. -/
def MAG_DETACH_DELTA : ℚ := 20

/-- Threshold constant from the THRESHOLDS table (part_000 line 343):
stationarity RMS bound in g units. -/
def STATIONARY_RMS : ℚ := 3/100

/-- Threshold constant from the THRESHOLDS table (part_000 line 344):
stationarity window span in integer milliseconds. -/
def STATIONARY_WINDOW : ℤ := 200

/-- Angular-rate gate from the detection pseudocode (part_000 line 122),
in degrees per second. -/
def OMEGA_MIN : ℚ := 30

/-- Angular-rate gate as used by the Phase 4 listener (part_000 line 244),
the literal 0.52 rad/s. -/
def OMEGA_MIN_RAD : ℚ := 52/100

/-- Detent quantum from the detection pseudocode (part_000 line 121),
in degrees. -/
def DETENT_ANGLE : ℚ := 30

/-- Minimum spacing between detents from the THRESHOLDS table (part_000
line 353); declared there but referenced by no listener in the repository;
in integer milliseconds. -/
def DWELL_TIME : ℤ := 75

/-- Gesture window span in milliseconds (part_000 line 356 and the literal
3000 in the Phase 6 snippet); in integer milliseconds, matching the
Date.now() timestamps the snippet subtracts. -/
def GESTURE_WINDOW : ℤ := 3000

/-- Confirm threshold on the summed detent window (part_000 line 357). -/
def CONFIRM_DETENTS : ℤ := 2

/-- Cancel threshold on the summed detent window (part_000 line 358). -/
def CANCEL_DETENTS : ℤ := -1

/-- Tilt threshold in degrees from the THRESHOLDS table (part_000 line 361);
declared there but referenced by no listener in the repository. -/
def TILT_THRESHOLD : ℚ := 8

/-- Arithmetic mean used by the calibration routine (part_000 lines 382-383).
On an empty list the rational model yields 0 where the source would divide
zero by zero; the theorems below avoid that case via hypotheses. -/
def average (l : List ℚ) : ℚ := l.sum / l.length

/-- Calibration output installed by the calibration routine: the spec's
CalibrationState with the two corrections the source computes. -/
structure CalibrationState where
  gyroBiasZ : ℚ
  magBaseline : ℚ
deriving DecidableEq

/-- Embeds part_000 lines 368-388: the source calibrate() takes no
parameters, collects whatever gyro.z and magnetometer-magnitude samples
arrive during its fixed 1000 ms window (the two list arguments), and then
unconditionally overwrites both corrections with the sample means.  The
prior state is the installed state at call time; the source never reads it
and has no sample-count check or error path. -/
def calibrate (prior : CalibrationState) (gyroSamples magSamples : List ℚ) :
    CalibrationState :=
  ⟨average gyroSamples, average magSamples⟩

/-- State owned by the Phase 2 attachment listener (part_000 lines 188-195):
the magnetometer baseline, initialised by useState(50), and the attached
flag, initialised false. -/
structure AttachState where
  magBaseline : ℚ
  isAttached : Bool
deriving DecidableEq

/-- Initial attachment state: useState(50) and useState(false)
(part_000 lines 188-189). -/
def attachInit : AttachState := ⟨50, false⟩

/-- Events reaching the attachment state: a magnetometer sample delivering
its magnitude (part_000 lines 191-195), or a completed calibration run
delivering its magnetometer samples (part_000 lines 376-383). -/
inductive MagEvent
  | sample (magnitude : ℚ)
  | calibrated (magSamples : List ℚ)

/-- True for magnetometer-sample events. -/
def MagEvent.isSample : MagEvent → Bool
  | .sample _ => true
  | .calibrated _ => false

/-- Embeds the Phase 2 magnetometer listener (part_000 lines 191-195):
each sample recomputes attached as delta > 40 against the current baseline,
ignoring the previous attached value; a calibration run replaces the
baseline with the mean magnitude (part_000 line 383). -/
def magStep (s : AttachState) (e : MagEvent) : AttachState :=
  match e with
  | .sample m => ⟨s.magBaseline, decide (MAG_ATTACH_DELTA < m - s.magBaseline)⟩
  | .calibrated ms => ⟨average ms, s.isAttached⟩

/-- Embeds the Phase 3 accelerometer window update (part_000 lines 210-216):
push the new magnitude, then if the window holds more than 20 samples shift
off the oldest.  Timestamps are not consulted. -/
def accelPush (w : List ℚ) (m : ℚ) : List ℚ :=
  if 20 < (w ++ [m]).length then (w ++ [m]).drop 1 else w ++ [m]

/-- Mean of squares over a window, the quantity under the square root in the
Phase 3 RMS computation (part_000 lines 219-222). -/
def meanSquare (w : List ℚ) : ℚ := (w.map (fun v => v * v)).sum / w.length

/-- Embeds the Phase 3 stationarity decision (part_000 line 224): the source
compares sqrt(meanSquare w) < STATIONARY_RMS; both sides are nonnegative, so
comparing the squares is equivalent and keeps the definition in ℚ. -/
def isStationaryCode (w : List ℚ) : Bool :=
  decide (meanSquare w < STATIONARY_RMS * STATIONARY_RMS)

/-- Follows the spec's words (StationarityGate, spec section 4.4) for the
refinement comparison of claim C9: a time-bounded window of timestamped
magnitudes pruned by timestamp, RMS over the retained magnitudes.  Samples
are (timestamp, magnitude) pairs with integer-millisecond timestamps. -/
def isStationarySpec (samples : List (ℤ × ℚ)) (now : ℤ) : Bool :=
  decide (meanSquare
    ((samples.filter (fun e => decide (now - e.1 < STATIONARY_WINDOW))).map
      Prod.snd) < STATIONARY_RMS * STATIONARY_RMS)

/-- State owned by the Phase 4 gyroscope listener (part_000 lines 233-235):
the accumulated angle (radians) and the previous sample time (ms). -/
structure IntegState where
  angleAccum : ℚ
  lastTime : ℚ
deriving DecidableEq

/-- Embeds the Phase 4 gyroscope listener (part_000 lines 237-248): dt is
the raw wall-clock delta divided by 1000, lastTime is updated on every
sample, and when attached, stationary and the bias-compensated rate exceeds
0.52 rad/s the accumulator grows by omega * dt.  No clamp is applied to dt. -/
def gyroListener (s : IntegState) (isAttached isStationary : Bool)
    (z gyroBias now : ℚ) : IntegState :=
  if isAttached = true ∧ isStationary = true then
    if OMEGA_MIN_RAD < |z - gyroBias| then
      ⟨s.angleAccum + (z - gyroBias) * ((now - s.lastTime) / 1000), now⟩
    else ⟨s.angleAccum, now⟩
  else ⟨s.angleAccum, now⟩

/-- State of the detection-pseudocode loop (part_000 lines 125-126):
accumulated angle and signed detent count, both starting at zero. -/
structure RotState where
  angleAccum : ℚ
  detentCount : ℤ
deriving DecidableEq

/-- One sensor update as consumed by the detection pseudocode (part_000
lines 128-148): the two gate verdicts (computed by their own listeners,
embedded separately above), the bias-compensated rate omega in deg/s, the
inter-sample interval dt in seconds, and the sample time t in integer ms.
The pseudocode itself carries no timestamp; t only labels an emitted
detent. -/
structure RotSample where
  attached : Bool
  stationary : Bool
  omega : ℚ
  dt : ℚ
  t : ℤ

/-- Embeds onSensorUpdate (part_000 lines 128-148) together with the Phase 5
detent emission (part_000 lines 262-268): when both gates hold and
|omega| > OMEGA_MIN the accumulator grows by omega * dt; if the result
reaches DETENT_ANGLE in magnitude, a signed detent is emitted and the
accumulator resets to 0.  Nothing else in the state gates emission. -/
def onSensorUpdate (s : RotState) (u : RotSample) : RotState × Option (ℤ × ℤ) :=
  if u.attached = true ∧ u.stationary = true ∧ OMEGA_MIN < |u.omega| then
    if DETENT_ANGLE ≤ |s.angleAccum + u.omega * u.dt| then
      (⟨0, s.detentCount + (if 0 < s.angleAccum + u.omega * u.dt then 1 else -1)⟩,
        some ((if 0 < s.angleAccum + u.omega * u.dt then (1 : ℤ) else -1), u.t))
    else (⟨s.angleAccum + u.omega * u.dt, s.detentCount⟩, none)
  else (s, none)

/-- Initial state of the detection loop (part_000 lines 125-126). -/
def rotInit : RotState := ⟨0, 0⟩

/-- Runs the detection loop over a sample list, collecting the emitted
detent events in order. -/
def rotRun : RotState → List RotSample → RotState × List (ℤ × ℤ)
  | s, [] => (s, [])
  | s, u :: rest =>
    let r := onSensorUpdate s u
    let tail := rotRun r.1 rest
    (tail.1, r.2.toList ++ tail.2)

/-- Result emitted by the Phase 6 gesture recognizer (part_000 lines
294-301).  The snippet has no timeout emission. -/
inductive GRes
  | Confirm
  | Cancel
deriving DecidableEq

/-- State of the Phase 6 recognizer: the detent history of (count, time)
entries (part_000 line 281), times in integer ms, and the cumulative detent
counter maintained by Phase 5 setDetents (part_000 line 264). -/
structure GState where
  hist : List (ℤ × ℤ)
  detents : ℤ
deriving DecidableEq

/-- Initial recognizer state; also models resetGesture(), which is called
but not defined in the repository and can only sensibly clear both pieces.
Neither theorem below depends on what happens after an emission. -/
def gestureInit : GState := ⟨[], 0⟩

/-- Embeds the Phase 5 counter update plus the Phase 6 useEffect (part_000
lines 262-268 and 283-303): a detent of the given direction bumps the
cumulative counter, the new cumulative count is pushed with its timestamp,
entries older than GESTURE_WINDOW are pruned, and the counts retained in
the window are summed against the two thresholds. -/
def detentHistoryStep (s : GState) (direction : ℤ) (now : ℤ) :
    GState × Option GRes :=
  let d := s.detents + direction
  let hist := (s.hist ++ [(d, now)]).filter
    (fun e => decide (now - e.2 < GESTURE_WINDOW))
  let total := (hist.map Prod.fst).sum
  if CONFIRM_DETENTS ≤ total then (gestureInit, some GRes.Confirm)
  else if total ≤ CANCEL_DETENTS then (gestureInit, some GRes.Cancel)
  else (⟨hist, d⟩, none)

/-- Runs the recognizer over a list of (direction, time) detent events,
collecting emitted results in order. -/
def gestureRun : GState → List (ℤ × ℤ) → GState × List GRes
  | s, [] => (s, [])
  | s, ev :: rest =>
    let r := detentHistoryStep s ev.1 ev.2
    let tail := gestureRun r.1 rest
    (tail.1, r.2.toList ++ tail.2)

/-- Detent trace for claim C1: clockwise, counter-clockwise, clockwise at
0 ms, 1000 ms and 2000 ms, all inside one gesture window. -/
def c1trace : List (ℤ × ℤ) := [(1, 0), (-1, 1000), (1, 2000)]

/-- Detent trace for claim C6: one clockwise detent, a 4000 ms gap
exceeding GESTURE_WINDOW, then a second clockwise detent. -/
def c6trace : List (ℤ × ℤ) := [(1, 0), (1, 4000)]

/-- Accelerometer trace for claim C9: 21 timestamped magnitudes at a steady
50 Hz (20 ms spacing), magnitude 1 up to 180 ms and 0 from 200 ms on. -/
def c9samples : List (ℤ × ℚ) :=
  [(0, 1), (20, 1), (40, 1), (60, 1), (80, 1), (100, 1), (120, 1), (140, 1),
   (160, 1), (180, 1), (200, 0), (220, 0), (240, 0), (260, 0), (280, 0),
   (300, 0), (320, 0), (340, 0), (360, 0), (380, 0), (400, 0)]

/-- Recognizer phases of the spec's GestureRecognizer (spec section 4.7),
used only by the spec-modelled tilt check below. -/
inductive GPhase
  | Idle
  | Collecting
  | Cooldown
deriving DecidableEq

/-- Modelled from the spec: engine state visible to the section 4.5 tilt
check, namely the angle accumulator, the recognizer phase and the partial
detent window.  No tilt-handling code exists in the repository; only the
TILT_THRESHOLD constant and the pickup-detection bullet declare it. -/
structure TiltEngine where
  angleAccum : ℚ
  phase : GPhase
  window : List (ℤ × ℤ)
deriving DecidableEq

/-- One input to the tilt-checked step: device tilt in degrees relative to
the calibration-time orientation, plus the fields of a rotation sample. -/
structure TiltInput where
  tiltDeg : ℚ
  attached : Bool
  stationary : Bool
  omega : ℚ
  dt : ℚ
  t : ℤ

/-- Modelled from the spec: section 4.5's tilt-pickup check composed with
the documented integration and quantization step.  Tilt above
TILT_THRESHOLD zeroes the accumulator, clears the partial gesture window
and forces the recognizer phase to Idle before any integration or detent
emission is considered; otherwise the step behaves like onSensorUpdate and
a detent moves the phase to Collecting. -/
def tiltStep (s : TiltEngine) (u : TiltInput) : TiltEngine × Option (ℤ × ℤ) :=
  if TILT_THRESHOLD < u.tiltDeg then (⟨0, GPhase.Idle, []⟩, none)
  else if u.attached = true ∧ u.stationary = true ∧ OMEGA_MIN < |u.omega| then
    if DETENT_ANGLE ≤ |s.angleAccum + u.omega * u.dt| then
      (⟨0, GPhase.Collecting,
          s.window ++ [((if 0 < s.angleAccum + u.omega * u.dt then (1 : ℤ) else -1), u.t)]⟩,
        some ((if 0 < s.angleAccum + u.omega * u.dt then (1 : ℤ) else -1), u.t))
    else (⟨s.angleAccum + u.omega * u.dt, s.phase, s.window⟩, none)
  else (s, none)


/-- Helper: one onSensorUpdate step keeps the accumulator strictly below the
detent quantum. -/
theorem onSensorUpdate_accum_lt (s : RotState) (u : RotSample)
    (h : |s.angleAccum| < DETENT_ANGLE) :
    |(onSensorUpdate s u).1.angleAccum| < DETENT_ANGLE := by
  unfold onSensorUpdate
  split_ifs with h1 h2 h3
  · show |(0 : ℚ)| < DETENT_ANGLE
    rw [abs_zero]
    norm_num [DETENT_ANGLE]
  · show |(0 : ℚ)| < DETENT_ANGLE
    rw [abs_zero]
    norm_num [DETENT_ANGLE]
  · exact lt_of_not_le h2
  · exact h

/-- Helper: the accumulator bound is preserved along any run of the
detection loop. -/
theorem rotRun_accum_lt (l : List RotSample) :
    ∀ s : RotState, |s.angleAccum| < DETENT_ANGLE →
      |(rotRun s l).1.angleAccum| < DETENT_ANGLE := by
  induction l with
  | nil => intro s h; simpa [rotRun] using h
  | cons u rest ih =>
    intro s h
    simpa [rotRun] using ih (onSensorUpdate s u).1 (onSensorUpdate_accum_lt s u h)

/-- Claim C10: after every completed processing step of one sensor update,
the accumulated angle satisfies |angleAccum| < DETENT_ANGLE, and any step
that crosses the detent threshold (emits a detent) ends with the
accumulator reset to exactly 0. -/
theorem c10_accum_below_detent :
    (∀ l : List RotSample, |(rotRun rotInit l).1.angleAccum| < DETENT_ANGLE) ∧
    ∀ (s : RotState) (u : RotSample),
      ((onSensorUpdate s u).2).isSome = true →
        (onSensorUpdate s u).1.angleAccum = 0 := by
  constructor
  · intro l
    apply rotRun_accum_lt
    show |(0 : ℚ)| < DETENT_ANGLE
    rw [abs_zero]
    norm_num [DETENT_ANGLE]
  · intro s u h
    unfold onSensorUpdate at h ⊢
    split_ifs at h ⊢ <;> simp_all

/-- Witness for C10: a concrete crossing step (accumulator 29 degrees plus
a 10-degree increment) emits a detent and ends at accumulator 0. -/
theorem c10_accum_below_detent_witness :
    ((onSensorUpdate ⟨29, 0⟩ ⟨true, true, 100, 1/10, 0⟩).2).isSome = true ∧
    (onSensorUpdate ⟨29, 0⟩ ⟨true, true, 100, 1/10, 0⟩).1.angleAccum = 0 :=
  ⟨by norm_num [onSensorUpdate, OMEGA_MIN, DETENT_ANGLE, abs],
   c10_accum_below_detent.2 ⟨29, 0⟩ ⟨true, true, 100, 1/10, 0⟩
     (by norm_num [onSensorUpdate, OMEGA_MIN, DETENT_ANGLE, abs])⟩

/-- Counterexample to claim C5: two detent events are emitted 50 ms apart,
less than DWELL_TIME = 75 ms, so consecutive emissions are not separated by
the dwell interval. -/
theorem c5_detents_within_dwell :
    (rotRun rotInit
      [⟨true, true, 700, 1/20, 0⟩, ⟨true, true, 700, 1/20, 50⟩]).2
        = [(1, 0), (1, 50)] ∧
    (50 : ℤ) - 0 < DWELL_TIME := by
  constructor
  · norm_num [rotRun, onSensorUpdate, rotInit, OMEGA_MIN, DETENT_ANGLE, abs]
  · decide

/-- Claim C5 as amended: the source implements no dwell suppression
(DWELL_TIME is declared but unused, and the loop state carries no record of
the previous emission time), so whenever the gates pass and the updated
accumulator reaches the detent threshold a detent event is emitted
immediately and the accumulator resets to 0, regardless of the time since
the previous emission. -/
theorem c5_emission_without_dwell (s : RotState) (u : RotSample)
    (hA : u.attached = true) (hS : u.stationary = true)
    (hW : OMEGA_MIN < |u.omega|)
    (hX : DETENT_ANGLE ≤ |s.angleAccum + u.omega * u.dt|) :
    (onSensorUpdate s u).2 =
      some ((if 0 < s.angleAccum + u.omega * u.dt then (1 : ℤ) else -1), u.t) ∧
    (onSensorUpdate s u).1.angleAccum = 0 := by
  unfold onSensorUpdate
  rw [if_pos ⟨hA, hS, hW⟩, if_pos hX]
  exact ⟨rfl, rfl⟩

/-- Witness for the amended C5 at a concrete crossing input. -/
theorem c5_emission_without_dwell_witness :
    OMEGA_MIN < |(700 : ℚ)| ∧
    DETENT_ANGLE ≤ |(0 : ℚ) + 700 * (1/20)| ∧
    ((onSensorUpdate ⟨0, 0⟩ ⟨true, true, 700, 1/20, 0⟩).2 =
        some ((if 0 < (0 : ℚ) + 700 * (1/20) then (1 : ℤ) else -1), 0) ∧
      (onSensorUpdate ⟨0, 0⟩ ⟨true, true, 700, 1/20, 0⟩).1.angleAccum = 0) :=
  ⟨by norm_num [OMEGA_MIN, abs], by norm_num [DETENT_ANGLE, abs],
   c5_emission_without_dwell ⟨0, 0⟩ ⟨true, true, 700, 1/20, 0⟩ rfl rfl
     (by norm_num [OMEGA_MIN, abs]) (by norm_num [DETENT_ANGLE, abs])⟩

/-- Claim C1 (evaluation at the failing input): on the detent sequence
clockwise, counter-clockwise, clockwise at 0 ms, 1000 ms, 2000 ms the
recognizer emits Confirm, because the history stores cumulative counts
(1, 0, 1) whose sum is 2; the per-event directions sum only to 1, which is
below CONFIRM_DETENTS, so the claimed direction-sum rule would emit
nothing. -/
theorem c1_history_sums_counts_not_directions :
    (gestureRun gestureInit c1trace).2 = [GRes.Confirm] ∧
    (c1trace.map Prod.fst).sum = 1 ∧ (1 : ℤ) < CONFIRM_DETENTS := by decide

/-- Claim C6 (evaluation at the failing input): one clockwise detent, a
4000 ms gap exceeding GESTURE_WINDOW, then a second clockwise detent makes
the recognizer emit Confirm — the pruned stale entry still contributes
through the cumulative count 2 pushed at the second detent — where the
repository's own Test 5 requires no gesture (timeout). -/
theorem c6_stale_detent_confirm :
    (gestureRun gestureInit c6trace).2 = [GRes.Confirm] ∧
    GESTURE_WINDOW < 4000 - 0 := by decide

/-- Helper: magnetometer samples never change the baseline; only a
calibration event does. -/
theorem magStep_baseline_const (l : List MagEvent) :
    ∀ s : AttachState, (∀ e ∈ l, e.isSample = true) →
      (List.foldl magStep s l).magBaseline = s.magBaseline := by
  induction l with
  | nil => intro s _; rfl
  | cons e rest ih =>
    intro s h
    have he := h e (List.mem_cons_self e rest)
    have hr : ∀ x ∈ rest, x.isSample = true :=
      fun x hx => h x (List.mem_cons_of_mem e hx)
    rw [List.foldl_cons, ih (magStep s e) hr]
    cases e with
    | sample m => rfl
    | calibrated ms => simp [MagEvent.isSample] at he

/-- Counterexample to claim C2: before any calibration has run, a single
magnetometer sample of magnitude 95 µT makes the attachment gate report
true (delta 45 against the default baseline 50 exceeds 40), so the gate
does not report false unconditionally while uncalibrated. -/
theorem c2_attached_while_uncalibrated :
    (List.foldl magStep attachInit [MagEvent.sample 95]).isAttached = true := by
  norm_num [magStep, attachInit, MAG_ATTACH_DELTA]

/-- Claim C2 as amended: while no calibration has run, the attachment gate
evaluates every sample against the initial default baseline of 50 µT, so
after any uncalibrated sample sequence the gate reports exactly
magnitude − 50 > MAG_ATTACH_DELTA for the last sample; there is no
uncalibrated fail-safe. -/
theorem c2_gate_uses_default_baseline (l : List MagEvent) (m : ℚ)
    (h : ∀ e ∈ l, e.isSample = true) :
    (List.foldl magStep attachInit (l ++ [MagEvent.sample m])).isAttached
      = decide (MAG_ATTACH_DELTA < m - 50) := by
  rw [List.foldl_append, List.foldl_cons, List.foldl_nil]
  show (magStep (List.foldl magStep attachInit l) (MagEvent.sample m)).isAttached = _
  rw [show (magStep (List.foldl magStep attachInit l) (MagEvent.sample m)).isAttached
      = decide (MAG_ATTACH_DELTA
          < m - (List.foldl magStep attachInit l).magBaseline) from rfl,
    magStep_baseline_const l attachInit h]
  rfl

/-- Witness for the amended C2: one uncalibrated 60 µT sample followed by a
95 µT sample yields attached = true via the default-baseline formula. -/
theorem c2_gate_uses_default_baseline_witness :
    (∀ e ∈ ([MagEvent.sample 60] : List MagEvent), e.isSample = true) ∧
    (List.foldl magStep attachInit
        ([MagEvent.sample 60] ++ [MagEvent.sample 95])).isAttached
      = decide (MAG_ATTACH_DELTA < (95 : ℚ) - 50) :=
  ⟨by intro e he; simp at he; subst he; rfl,
   c2_gate_uses_default_baseline [MagEvent.sample 60] 95
     (by intro e he; simp at he; subst he; rfl)⟩

/-- Counterexample to claim C3: with a prior CalibrationState of (0, 0) and
only one sample per stream — fewer than a requested minimum of 2 — the
source still installs a new state, so the prior state is not retained and
no InsufficientSamples failure exists. -/
theorem c3_few_samples_still_installs :
    calibrate ⟨0, 0⟩ [5] [7] ≠ (⟨0, 0⟩ : CalibrationState) ∧
    ([(5 : ℚ)] : List ℚ).length < 2 := by
  constructor
  · norm_num [calibrate, average, CalibrationState.mk.injEq]
  · decide

/-- Claim C3 as amended: the source calibrate() takes no window or
minimum-sample parameters; after its fixed 1000 ms window it
unconditionally installs the means of whatever samples arrived, independent
of the previously installed state and of the sample counts. -/
theorem c3_calibrate_unconditional (p₁ p₂ : CalibrationState)
    (gs ms : List ℚ) (hg : gs ≠ []) (hm : ms ≠ []) :
    calibrate p₁ gs ms = calibrate p₂ gs ms ∧
    calibrate p₁ gs ms = ⟨average gs, average ms⟩ :=
  ⟨rfl, rfl⟩

/-- Witness for the amended C3 at concrete sample lists. -/
theorem c3_calibrate_unconditional_witness :
    (([4, 6] : List ℚ) ≠ []) ∧ (([10] : List ℚ) ≠ []) ∧
    (calibrate ⟨1, 2⟩ [4, 6] [10] = calibrate ⟨0, 0⟩ [4, 6] [10] ∧
      calibrate ⟨1, 2⟩ [4, 6] [10] = ⟨average [4, 6], average [10]⟩) :=
  ⟨by simp, by simp,
   c3_calibrate_unconditional ⟨1, 2⟩ ⟨0, 0⟩ [4, 6] [10] (by simp) (by simp)⟩

/-- Counterexample to claim C4: from an attached state, a sample with delta
30 µT above baseline (at least MAG_DETACH_DELTA = 20, so the claim says
attached must remain true) makes the listener report false, because it
recomputes delta > 40 with the single attach threshold. -/
theorem c4_detach_above_hysteresis_threshold :
    (magStep ⟨50, true⟩ (MagEvent.sample 80)).isAttached = false ∧
    MAG_DETACH_DELTA ≤ (80 : ℚ) - 50 ∧ MAG_DETACH_DELTA < MAG_ATTACH_DELTA := by
  refine ⟨?_, by norm_num [MAG_DETACH_DELTA], by norm_num [MAG_DETACH_DELTA, MAG_ATTACH_DELTA]⟩
  norm_num [magStep, MAG_ATTACH_DELTA]

/-- Claim C4 as amended: the attachment listener recomputes attached on
every sample as delta > MAG_ATTACH_DELTA, independent of the previous
attached value — no hysteresis is implemented, although the declared
MAG_DETACH_DELTA is indeed strictly below MAG_ATTACH_DELTA. -/
theorem c4_single_threshold_attachment (b : Bool) (base m : ℚ) :
    (magStep ⟨base, b⟩ (MagEvent.sample m)).isAttached
        = decide (MAG_ATTACH_DELTA < m - base) ∧
    MAG_DETACH_DELTA < MAG_ATTACH_DELTA :=
  ⟨rfl, by norm_num [MAG_DETACH_DELTA, MAG_ATTACH_DELTA]⟩

/-- Counterexample to claim C7: after a 200 ms delivery gap with
omega = 2 rad/s the accumulator grows by 2 · 0.2 = 0.4 rad, exceeding the
claimed bound omega · 50 ms = 0.1 rad, so dt is not clamped. -/
theorem c7_unclamped_gap :
    (gyroListener ⟨0, 0⟩ true true 2 0 200).angleAccum = 2/5 ∧
    ¬((2 : ℚ)/5 ≤ 2 * (50/1000)) := by
  constructor
  · norm_num [gyroListener, OMEGA_MIN_RAD, abs]
  · norm_num

/-- Claim C7 as amended: while attached and stationary with
|omega| > 0.52 rad/s, the accumulator grows by exactly
omega · (now − lastTime)/1000 with the raw wall-clock delta — no clamp is
applied, so a delivery gap contributes omega times the full gap. -/
theorem c7_raw_dt_integration (s : IntegState) (a st : Bool)
    (z bias now : ℚ) (hA : a = true) (hS : st = true)
    (hW : OMEGA_MIN_RAD < |z - bias|) :
    gyroListener s a st z bias now
      = ⟨s.angleAccum + (z - bias) * ((now - s.lastTime) / 1000), now⟩ := by
  unfold gyroListener
  rw [if_pos ⟨hA, hS⟩, if_pos hW]

/-- Witness for the amended C7 at a concrete integrated sample. -/
theorem c7_raw_dt_integration_witness :
    OMEGA_MIN_RAD < |(1 : ℚ) - 0| ∧
    gyroListener ⟨1, 100⟩ true true 1 0 150
      = ⟨1 + ((1 : ℚ) - 0) * ((150 - 100) / 1000), 150⟩ :=
  ⟨by norm_num [OMEGA_MIN_RAD, abs],
   c7_raw_dt_integration ⟨1, 100⟩ true true 1 0 150 rfl rfl
     (by norm_num [OMEGA_MIN_RAD, abs])⟩

/-- Helper: pushing onto the last-20-samples window of a history equals
taking the last 20 samples of the extended history. -/
theorem accelPush_drop (l : List ℚ) (m : ℚ) :
    accelPush (l.drop (l.length - 20)) m
      = (l ++ [m]).drop ((l ++ [m]).length - 20) := by
  rcases le_or_lt l.length 19 with h | h
  · have h1 : l.length - 20 = 0 := by omega
    have h2 : (l ++ [m]).length - 20 = 0 := by
      simp only [List.length_append, List.length_cons, List.length_nil]
      omega
    rw [h1, List.drop_zero, h2, List.drop_zero]
    unfold accelPush
    rw [if_neg]
    simp only [List.length_append, List.length_cons, List.length_nil]
    omega
  · have hlen : (l.drop (l.length - 20)).length = 20 := by
      rw [List.length_drop]
      omega
    unfold accelPush
    rw [if_pos]
    · have h1 : (1 : ℕ) ≤ (l.drop (l.length - 20)).length := by omega
      rw [List.drop_append_of_le_length h1, List.drop_drop]
      have e1 : l.length - 20 + 1 = l.length - 19 := by omega
      rw [e1]
      have e2 : (l ++ [m]).length - 20 = l.length - 19 := by
        simp only [List.length_append, List.length_cons, List.length_nil]
        omega
      rw [e2]
      have h2 : l.length - 19 ≤ l.length := by omega
      rw [List.drop_append_of_le_length h2]
    · simp only [List.length_append, List.length_cons, List.length_nil, hlen]
      omega

/-- Claim C9 as amended: the accelerometer window is pruned by sample
count, not timestamp — after any sequence of magnitudes the window holds
exactly the most recent 20 samples regardless of their timestamps, so the
effective time span varies with the sample rate. -/
theorem c9_window_keeps_last_twenty (ms : List ℚ) :
    List.foldl accelPush [] ms = ms.drop (ms.length - 20) := by
  induction ms using List.reverseRecOn with
  | nil => rfl
  | append_singleton l m ih =>
    rw [List.foldl_append, List.foldl_cons, List.foldl_nil, ih]
    exact accelPush_drop l m

/-- Counterexample to claim C9: on a 50 Hz trace the count-pruned source
window still contains samples older than STATIONARY_WINDOW and reports not
stationary, while the timestamp-pruned window the claim describes contains
only the quiet recent samples and reports stationary. -/
theorem c9_count_vs_time_pruning :
    isStationaryCode (List.foldl accelPush [] (c9samples.map Prod.snd)) = false ∧
    isStationarySpec c9samples 400 = true := by
  constructor
  · norm_num [isStationaryCode, c9samples, accelPush, meanSquare, STATIONARY_RMS]
  · norm_num [isStationarySpec, c9samples, meanSquare, STATIONARY_RMS,
      STATIONARY_WINDOW]

/-- Claim C8 (spec-modelled): whenever the tilt derived from the
accelerometer exceeds TILT_THRESHOLD, the step zeroes angleAccum, clears
the partial gesture window, forces the recognizer to Idle, and emits no
detent — taking priority over any pending detent in the same step. -/
theorem c8_tilt_resets_engine (s : TiltEngine) (u : TiltInput)
    (h : TILT_THRESHOLD < u.tiltDeg) :
    (tiltStep s u).1 = ⟨0, GPhase.Idle, []⟩ ∧ (tiltStep s u).2 = none := by
  unfold tiltStep
  rw [if_pos h]
  exact ⟨rfl, rfl⟩

/-- Witness for C8: a 9-degree tilt resets a mid-gesture state (accumulator
at 29 degrees, one detent already collected) whose rotation input would
otherwise cross the detent threshold. -/
theorem c8_tilt_resets_engine_witness :
    TILT_THRESHOLD < (9 : ℚ) ∧
    ((tiltStep ⟨29, GPhase.Collecting, [(1, 0)]⟩
        ⟨9, true, true, 200, 1/10, 500⟩).1 = ⟨0, GPhase.Idle, []⟩ ∧
      (tiltStep ⟨29, GPhase.Collecting, [(1, 0)]⟩
        ⟨9, true, true, 200, 1/10, 500⟩).2 = none) :=
  ⟨by norm_num [TILT_THRESHOLD],
   c8_tilt_resets_engine ⟨29, GPhase.Collecting, [(1, 0)]⟩
     ⟨9, true, true, 200, 1/10, 500⟩ (by norm_num [TILT_THRESHOLD])⟩
